import Mathlib

/-! Shallow embedding of the Anderson-acceleration module `src/aa.c` of
the scs repository.

The machine floating-point type `aa_float` is modelled by exact
rationals, vectors by lists of rationals, and the column-major `l x k`
matrices by the lists of their `k` columns.  The dense BLAS primitives
consumed by the code (`axpy`, `gemv`, `gemm`, `nrm2`) are pure and are
modelled directly by their mathematical meaning on lists.  The pivoted
solver LAPACK `?gesv` is an external routine and is a parameter of the
embedding (`Gesv`): it receives the system size `n` passed by the code,
the full `k x k` matrix `M` (the C code hands over a pointer together
with the leading dimension `k`), and the full length-`k` workspace
holding the right-hand side; it returns the length-`n` solution vector
together with the `info` diagnostic.  The code treats `info < 0` as the
factorization-failure diagnostic (`aa.c` line 135).

The safeguard in `aa.c` compares `nrm2(work) >= MAX_AA_NRM`; both sides
being nonnegative, this is equivalent to comparing the squared norm
against the squared threshold, which stays exact over the rationals.
The embedding therefore carries the squared threshold `maxNrmSq` as a
parameter (the numeric value of `MAX_AA_NRM` lives in the header
`aa.h`, which is not part of the sources; per the spec it is only some
fixed numerical threshold). -/

namespace AA

/-- Vectors of `aa_float` entries, modelled as lists of rationals. -/
abbrev Vec := List ℚ

/-- BLAS `axpy(alpha, src, dst)`: `dst <- dst + alpha * src`, pointwise. -/
def axpy (alpha : ℚ) (src dst : Vec) : Vec :=
  List.zipWith (fun si di => di + alpha * si) src dst

/-- Euclidean inner product of two vectors. -/
def dot (x y : Vec) : ℚ := (List.zipWith (· * ·) x y).sum

/-- Componentwise difference. -/
def vsub (x y : Vec) : Vec := List.zipWith (· - ·) x y

/-- Componentwise sum. -/
def vadd (x y : Vec) : Vec := List.zipWith (· + ·) x y

/-- Scalar multiple of a vector. -/
def smul (c : ℚ) (x : Vec) : Vec := x.map (fun xi => c * xi)

/-- The zero vector of length `n` (calloc-initialised storage). -/
def zeros (n : ℕ) : Vec := List.replicate n (0 : ℚ)

/-- First `n` entries of `xs`, padded with zeros up to length `n`. -/
def padTake (n : ℕ) (xs : Vec) : Vec := (xs ++ zeros n).take n

/-- Type of the external pivoted dense solver (LAPACK `?gesv`):
arguments are the system size, the full Gram matrix and the full
workspace vector; the result is the solution of the leading system
together with the `info` diagnostic. -/
abbrev Gesv := ℕ → List Vec → Vec → Vec × ℤ

/-- The struct `ACCEL_WORK` of `aa.c` (lines 11-36).  The scratch
pointers `work` and `ipiv` are not part of the state: `work` is
reconstructed inside `solve` (its entries at positions `len, ..., k-1`
are zero-initialised by calloc and never written, since `len` never
decreases over the life of an instance), and `ipiv` is internal to the
external solver. -/
structure AaWork where
  type1 : Bool
  k : ℤ
  l : ℕ
  iter : ℕ
  x : Vec
  f : Vec
  g : Vec
  g_prev : Vec
  y : Vec
  s : Vec
  d : Vec
  Y : List Vec
  S : List Vec
  D : List Vec
  M : List Vec
  deriving DecidableEq, Repr

/-- The memory depth as a natural number (`a->k` is only used as a size
on the enabled path, where it is positive). -/
def kn (a : AaWork) : ℕ := a.k.toNat

/-- Model of the `gemm("Trans", "No", ...)` call of `set_m` (`aa.c`
lines 54-61): the matrix `Aᵀ · Y`, stored by columns; entry `i` of
column `j` is the inner product of column `i` of `A` with column `j` of
`Y`.  All `k` columns of both operands are read. -/
def set_m_mat (A Y : List Vec) : List Vec :=
  Y.map (fun yj => A.map (fun ai => dot ai yj))

/-- `set_m` (`aa.c` lines 54-61): overwrite `M` with `Sᵀ·Y` for type-1
acceleration and with `Yᵀ·Y` otherwise. -/
def set_m (a : AaWork) : AaWork :=
  { a with M := set_m_mat (if a.type1 then a.S else a.Y) a.Y }

/-- `update_accel_params` (`aa.c` lines 64-119), translated line by
line; each `memcpy` plus `axpy(-1, src, dst)` pair appears as one
`axpy` application on the copied value.  The C code sets `g_prev` after
the `set_m` call; since `set_m` does not read `g_prev`, writing it in
the final record gives the identical state. -/
def update_accel_params (x f : Vec) (a : AaWork) : AaWork :=
  let idx := a.iter % kn a
  let g := axpy (-1) f x        -- g = x, then g -= f
  let s := axpy (-1) a.x x      -- s = x, then s -= x_prev
  let d := axpy (-1) a.f f      -- d = f, then d -= f_prev
  let y := axpy (-1) a.g_prev g -- y = g, then y -= g_prev
  let a1 := { a with g := g, s := s, d := d, y := y,
                     Y := a.Y.set idx y, S := a.S.set idx s,
                     D := a.D.set idx d, f := f, x := x }
  let a2 := set_m a1
  { a2 with g_prev := g }

/-- `solve` (`aa.c` lines 124-143).  The workspace is rebuilt each
call: its first `len` entries receive `Aᵀ g` over the first `len`
columns (`gemv("Trans")` with `n = len`), its remaining entries are the
zeros that calloc wrote and that no call ever overwrites.  The external
solver overwrites the first `len` entries with the solution of the
leading `len x len` system; `nrm2` is then taken over all `k` entries.
On `info < 0` or an excessive norm the function returns the input `f`
unchanged together with status `-1`; otherwise it applies
`gemv("NoTrans")` with `n = len`, i.e. `f <- f - D·w` over the first
`len` columns of `D`, and returns `info`. -/
def solve (f : Vec) (a : AaWork) (len : ℕ) (gesv : Gesv) (maxNrmSq : ℚ) :
    Vec × ℤ :=
  let A := if a.type1 then a.S else a.Y
  let work0 := (A.take len).map (fun ai => dot ai a.g) ++ zeros (kn a - len)
  let sol := (gesv len a.M work0).1
  let info := (gesv len a.M work0).2
  let work := padTake len sol ++ work0.drop len
  if info < 0 ∨ maxNrmSq ≤ dot work work then (f, -1)
  else
    ((List.zip (a.D.take len) (work.take len)).foldl
        (fun acc cw => axpy (-cw.2) cw.1 acc) f,
      info)

/-- Result of one `aa_apply` call: the (possibly overwritten) output
vector `f`, the returned status code and the state after the call. -/
structure StepResult where
  f : Vec
  status : ℤ
  state : AaWork
  deriving DecidableEq, Repr

/-- `aa_apply` (`aa.c` lines 182-192).  Disabled instances return
immediately; otherwise the history is updated, the iteration counter is
post-incremented, the very first call returns `0` without touching `f`,
and later calls run the guarded solve at size
`MIN(iter - 1, k)` (after the increment), i.e. `min` of the entry
iteration count and `k`. -/
def aa_apply (f x : Vec) (a : AaWork) (gesv : Gesv) (maxNrmSq : ℚ) :
    StepResult :=
  if a.k ≤ 0 then ⟨f, 0, a⟩
  else
    let a1 := update_accel_params x f a
    let a2 := { a1 with iter := a1.iter + 1 }
    if a.iter = 0 then ⟨f, 0, a2⟩
    else
      let p := solve f a2 (min a.iter (kn a)) gesv maxNrmSq
      ⟨p.1, p.2, a2⟩

/-- `aa_init` (`aa.c` lines 148-180) on the path where every calloc
succeeds: for `k <= 0` only the zeroed record exists (the buffer
pointers stay null, modelled as empty lists); for `k > 0` every buffer
is allocated zero-initialised. -/
def aa_init (l : ℕ) (k : ℤ) (type1 : Bool) : AaWork :=
  if k ≤ 0 then
    ⟨type1, k, l, 0, [], [], [], [], [], [], [], [], [], [], []⟩
  else
    ⟨type1, k, l, 0,
      zeros l, zeros l, zeros l, zeros l, zeros l, zeros l, zeros l,
      List.replicate k.toNat (zeros l), List.replicate k.toNat (zeros l),
      List.replicate k.toNat (zeros l),
      List.replicate k.toNat (zeros k.toNat)⟩

/-- Allocation-level model of `aa_init` (`aa.c` lines 148-180): one
entry of `ok` per calloc call, in program order (index 0 is the
`AaWork` record itself; indices 1-13 are the thirteen buffers
`x, f, g, g_prev, y, s, d, Y, S, D, M, work, ipiv`).  Only the record
allocation is checked by the code; on its failure the function returns
the null handle (`none`).  Otherwise it returns the handle, carrying
for `k > 0` the success flags of the thirteen unchecked buffer
allocations (a `false` flag is a buffer whose pointer is null inside a
handle that was nevertheless returned to the caller). -/
def aa_init_alloc (k : ℤ) (ok : ℕ → Bool) : Option (List Bool) :=
  if ok 0 = false then none
  else if k ≤ 0 then some []
  else some ((List.range 13).map (fun i => ok (i + 1)))

/-- Solver oracle returning the zero solution with a clean diagnostic. -/
def gesvZero : Gesv := fun n _ _ => (zeros n, 0)

/-- Solver oracle returning the zero solution and reporting, through
the `info` diagnostic, the system size it was invoked at. -/
def gesvProbe : Gesv := fun n _ _ => (zeros n, (n : ℤ))

/-- Mathematical weighted column sum over explicit column-weight
pairs, with result length pinned to `l`. -/
def mvmulPairs (ps : List (Vec × ℚ)) (l : ℕ) : Vec :=
  ps.foldr (fun cw acc => vadd (smul cw.2 cw.1) acc) (zeros l)

/-- Mathematical matrix-vector product: the linear combination of the
given columns with the given weights. -/
def mvmul (cols : List Vec) (w : List ℚ) (l : ℕ) : Vec :=
  mvmulPairs (List.zip cols w) l

/-- The residual snapshot invariant: the stored previous residual is
the difference of the stored previous iterate and map value. -/
abbrev residInv (a : AaWork) : Prop := a.g_prev = vsub a.x a.f

/-- The history identity `D = S - Y`, column by column. -/
abbrev histInv (a : AaWork) : Prop := a.D = List.zipWith vsub a.S a.Y

/-! Basic vector lemmas. -/

theorem axpy_neg_one (u v : Vec) : axpy (-1) u v = vsub v u := by
  unfold axpy vsub
  rw [List.zipWith_comm]
  congr 1
  funext a b
  ring

theorem vsub_zeros (v : Vec) : vsub v (zeros v.length) = v := by
  induction v with
  | nil => rfl
  | cons a v ih =>
    show (a - 0) :: vsub v (zeros v.length) = a :: v
    rw [sub_zero, ih]

theorem vsub_zeros_self (n : ℕ) : vsub (zeros n) (zeros n) = zeros n := by
  have h := vsub_zeros (zeros n)
  simpa [zeros] using h

theorem dot_zeros (m n : ℕ) : dot (zeros m) (zeros n) = 0 := by
  induction m generalizing n with
  | zero => simp [dot, zeros]
  | succ m ih =>
    cases n with
    | zero => simp [dot, zeros]
    | succ n =>
      show (0 * 0 + (List.zipWith (· * ·) (zeros m) (zeros n)).sum : ℚ) = 0
      have := ih n
      simp only [dot] at this
      simp [this]

theorem zeros_append (m n : ℕ) : zeros m ++ zeros n = zeros (m + n) :=
  (List.replicate_add m n (0 : ℚ)).symm

theorem padTake_zeros (n : ℕ) : padTake n (zeros n) = zeros n := by
  simp [padTake, zeros, ← List.replicate_add, List.take_replicate,
    Nat.min_eq_left (Nat.le_add_right n n)]

/-- The central componentwise identity behind `D = S - Y`:
`(x - xp) - ((x - f) - (xp - fp)) = f - fp`. -/
theorem vsub_s_y (x f xp fp : Vec)
    (h1 : x.length = f.length) (h2 : xp.length = fp.length)
    (h3 : x.length = xp.length) :
    vsub (vsub x xp) (vsub (vsub x f) (vsub xp fp)) = vsub f fp := by
  induction x generalizing f xp fp with
  | nil =>
    have hf : f = [] := List.length_eq_zero.mp (by simpa using h1.symm)
    have hxp : xp = [] := List.length_eq_zero.mp (by simpa using h3.symm)
    subst hf; subst hxp
    have hfp : fp = [] := List.length_eq_zero.mp (by simpa using h2.symm)
    subst hfp; rfl
  | cons a x ih =>
    cases f with
    | nil => simp at h1
    | cons b f =>
      cases xp with
      | nil => simp at h3
      | cons c xp =>
        cases fp with
        | nil => simp at h2
        | cons e fp =>
          show ((a - c) - ((a - b) - (c - e)))
                :: vsub (vsub x xp) (vsub (vsub x f) (vsub xp fp))
              = (b - e) :: vsub f fp
          rw [ih f xp fp (by simpa using h1) (by simpa using h2)
            (by simpa using h3)]
          congr 1
          ring

theorem zipWith_vsub_set (S Y : List Vec) (i : ℕ) (s y : Vec)
    (h : S.length = Y.length) :
    List.zipWith vsub (S.set i s) (Y.set i y)
      = (List.zipWith vsub S Y).set i (vsub s y) := by
  induction S generalizing Y i with
  | nil =>
    have hY : Y = [] := List.length_eq_zero.mp (by simpa using h.symm)
    subst hY; rfl
  | cons a S ih =>
    cases Y with
    | nil => simp at h
    | cons b Y =>
      cases i with
      | zero => simp
      | succ i =>
        simp only [List.set_cons_succ, List.zipWith_cons_cons]
        rw [ih Y i (by simpa using h)]

theorem mvmulPairs_nil (l : ℕ) : mvmulPairs [] l = zeros l := rfl

theorem mvmulPairs_cons (c : Vec) (w : ℚ) (ps : List (Vec × ℚ)) (l : ℕ) :
    mvmulPairs ((c, w) :: ps) l = vadd (smul w c) (mvmulPairs ps l) := rfl

theorem mvmulPairs_length (ps : List (Vec × ℚ)) (l : ℕ)
    (h : ∀ p ∈ ps, (p.1 : Vec).length = l) : (mvmulPairs ps l).length = l := by
  induction ps with
  | nil => simp [mvmulPairs, zeros]
  | cons p ps ih =>
    obtain ⟨c, w⟩ := p
    rw [mvmulPairs_cons]
    have hc : c.length = l := h (c, w) (by simp)
    have hr := ih (fun q hq => h q (by simp [hq]))
    simp [vadd, smul, hc, hr]

theorem axpy_length (alpha : ℚ) (u v : Vec) :
    (axpy alpha u v).length = min u.length v.length := by
  simp [axpy]

/-- One step of the correction loop, rewritten as pure vector algebra:
`(f + (-w)·c) - R = f - (w·c + R)`. -/
theorem vsub_axpy_step (c f R : Vec) (w : ℚ)
    (hc : c.length = f.length) (hR : R.length = f.length) :
    vsub (axpy (-w) c f) R = vsub f (vadd (smul w c) R) := by
  induction c generalizing f R with
  | nil =>
    have hf : f = [] := List.length_eq_zero.mp (by simpa using hc.symm)
    subst hf
    have hRn : R = [] := List.length_eq_zero.mp (by simpa using hR)
    subst hRn; rfl
  | cons a c ih =>
    cases f with
    | nil => simp at hc
    | cons b f =>
      cases R with
      | nil => simp at hR
      | cons r R =>
        show ((b + -w * a) - r) :: vsub (axpy (-w) c f) R
            = (b - (w * a + r)) :: vsub f (vadd (smul w c) R)
        rw [ih f R (by simpa using hc) (by simpa using hR)]
        congr 1
        ring

/-- The `gemv("NoTrans")` correction loop computes exactly
`f - (the weighted sum of the columns)`. -/
theorem foldl_axpy_eq (ps : List (Vec × ℚ)) (f : Vec)
    (h : ∀ p ∈ ps, (p.1 : Vec).length = f.length) :
    ps.foldl (fun acc cw => axpy (-cw.2) cw.1 acc) f
      = vsub f (mvmulPairs ps f.length) := by
  induction ps generalizing f with
  | nil =>
    simp only [List.foldl_nil, mvmulPairs_nil]
    exact (vsub_zeros f).symm
  | cons p ps ih =>
    obtain ⟨c, w⟩ := p
    have hc : c.length = f.length := h (c, w) (by simp)
    have hlen : (axpy (-w) c f).length = f.length := by
      rw [axpy_length, hc, Nat.min_self]
    rw [List.foldl_cons]
    rw [ih (axpy (-w) c f) (fun q hq => by rw [hlen]; exact h q (by simp [hq]))]
    rw [hlen, mvmulPairs_cons]
    exact vsub_axpy_step c f (mvmulPairs ps f.length) w hc
      (mvmulPairs_length ps f.length fun q hq => h q (by simp [hq]))

/-! Field-level description of `update_accel_params`, with the
`memcpy`-plus-`axpy` combinations rewritten as plain differences. -/

@[simp] theorem update_x (x f : Vec) (a : AaWork) :
    (update_accel_params x f a).x = x := rfl

@[simp] theorem update_f (x f : Vec) (a : AaWork) :
    (update_accel_params x f a).f = f := rfl

@[simp] theorem update_g (x f : Vec) (a : AaWork) :
    (update_accel_params x f a).g = vsub x f := by
  simp [update_accel_params, set_m, axpy_neg_one]

@[simp] theorem update_g_prev (x f : Vec) (a : AaWork) :
    (update_accel_params x f a).g_prev = vsub x f := by
  simp [update_accel_params, set_m, axpy_neg_one]

@[simp] theorem update_iter (x f : Vec) (a : AaWork) :
    (update_accel_params x f a).iter = a.iter := rfl

@[simp] theorem update_k (x f : Vec) (a : AaWork) :
    (update_accel_params x f a).k = a.k := rfl

@[simp] theorem update_l (x f : Vec) (a : AaWork) :
    (update_accel_params x f a).l = a.l := rfl

@[simp] theorem update_type1 (x f : Vec) (a : AaWork) :
    (update_accel_params x f a).type1 = a.type1 := rfl

@[simp] theorem update_Y (x f : Vec) (a : AaWork) :
    (update_accel_params x f a).Y
      = a.Y.set (a.iter % kn a) (vsub (vsub x f) a.g_prev) := by
  simp [update_accel_params, set_m, axpy_neg_one]

@[simp] theorem update_S (x f : Vec) (a : AaWork) :
    (update_accel_params x f a).S
      = a.S.set (a.iter % kn a) (vsub x a.x) := by
  simp [update_accel_params, set_m, axpy_neg_one]

@[simp] theorem update_D (x f : Vec) (a : AaWork) :
    (update_accel_params x f a).D
      = a.D.set (a.iter % kn a) (vsub f a.f) := by
  simp [update_accel_params, set_m, axpy_neg_one]

@[simp] theorem update_M (x f : Vec) (a : AaWork) :
    (update_accel_params x f a).M
      = set_m_mat
          (if a.type1 then a.S.set (a.iter % kn a) (vsub x a.x)
           else a.Y.set (a.iter % kn a) (vsub (vsub x f) a.g_prev))
          (a.Y.set (a.iter % kn a) (vsub (vsub x f) a.g_prev)) := by
  by_cases h : a.type1 <;>
    simp [update_accel_params, set_m, axpy_neg_one, h]

/-! Branch-level description of `aa_apply`. -/

/-- On every enabled call the state after the call is the updated
history with the iteration counter bumped, whatever `solve` does. -/
theorem aa_apply_state (f x : Vec) (a : AaWork) (gesv : Gesv)
    (maxNrmSq : ℚ) (hk : 0 < a.k) :
    (aa_apply f x a gesv maxNrmSq).state
      = { update_accel_params x f a with iter := a.iter + 1 } := by
  unfold aa_apply
  rw [if_neg (by omega)]
  by_cases h : a.iter = 0 <;> simp [h]

/-- Every enabled post-warmup call runs the guarded solve at size
`min iter k` on the bumped updated state. -/
theorem aa_apply_solve (f x : Vec) (a : AaWork) (gesv : Gesv)
    (maxNrmSq : ℚ) (hk : 0 < a.k) (hi : a.iter ≠ 0) :
    aa_apply f x a gesv maxNrmSq
      = ⟨(solve f { update_accel_params x f a with iter := a.iter + 1 }
            (min a.iter (kn a)) gesv maxNrmSq).1,
         (solve f { update_accel_params x f a with iter := a.iter + 1 }
            (min a.iter (kn a)) gesv maxNrmSq).2,
         { update_accel_params x f a with iter := a.iter + 1 }⟩ := by
  unfold aa_apply
  rw [if_neg (by omega), if_neg hi]
  rfl

/-- A negative status from `solve` leaves the output vector at its
input value. -/
theorem solve_neg_status (f : Vec) (a : AaWork) (len : ℕ) (gesv : Gesv)
    (maxNrmSq : ℚ) (h : (solve f a len gesv maxNrmSq).2 < 0) :
    (solve f a len gesv maxNrmSq).1 = f := by
  unfold solve at *
  by_cases hg : (gesv len a.M
      ((((if a.type1 then a.S else a.Y).take len).map
        (fun ai => dot ai a.g)) ++ zeros (kn a - len))).2 < 0 ∨
      maxNrmSq ≤ dot
        (padTake len (gesv len a.M
            ((((if a.type1 then a.S else a.Y).take len).map
              (fun ai => dot ai a.g)) ++ zeros (kn a - len))).1 ++
          ((((if a.type1 then a.S else a.Y).take len).map
            (fun ai => dot ai a.g)) ++ zeros (kn a - len)).drop len)
        (padTake len (gesv len a.M
            ((((if a.type1 then a.S else a.Y).take len).map
              (fun ai => dot ai a.g)) ++ zeros (kn a - len))).1 ++
          ((((if a.type1 then a.S else a.Y).take len).map
            (fun ai => dot ai a.g)) ++ zeros (kn a - len)).drop len) <;>
    simp only [hg, if_true, if_false, ite_true, ite_false] at h ⊢
  omega

/-! The claims. -/

/-- Claim C5: for every instance constructed with memory depth `k ≤ 0`
and every call to step with any vectors x and f, the call leaves f
bit-identical to its input, returns status 0 (Disabled), and mutates no
accelerator state; in particular the iteration counter stays where it
was (at 0 on a freshly constructed instance). -/
theorem claim5_disabled_noop (a : AaWork) (x f : Vec) (gesv : Gesv)
    (maxNrmSq : ℚ) (hk : a.k ≤ 0) :
    aa_apply f x a gesv maxNrmSq = ⟨f, 0, a⟩ := by
  unfold aa_apply
  rw [if_pos hk]

/-- Witness for C5 at the concrete disabled instance `aa_init 2 0`. -/
theorem claim5_disabled_noop_witness :
    aa_apply [1, 2] [3, 4] (aa_init 2 0 true) gesvZero 100
      = ⟨[1, 2], 0, aa_init 2 0 true⟩ :=
  claim5_disabled_noop (aa_init 2 0 true) [3, 4] [1, 2] gesvZero 100
    (by decide)

/-- Claim C4: on an enabled instance (`k > 0`) the first-ever step
(iteration counter 0 at entry) performs only the history update: it
leaves f at its input value, returns status 0 (Warmup), stores the
passed-in x and f as the previous iterate and previous map value, and
leaves the iteration counter at 1. -/
theorem claim4_first_step_warmup (a : AaWork) (x f : Vec) (gesv : Gesv)
    (maxNrmSq : ℚ) (hk : 0 < a.k) (hi : a.iter = 0) :
    aa_apply f x a gesv maxNrmSq
        = ⟨f, 0, { update_accel_params x f a with iter := 1 }⟩
      ∧ (aa_apply f x a gesv maxNrmSq).state.x = x
      ∧ (aa_apply f x a gesv maxNrmSq).state.f = f
      ∧ (aa_apply f x a gesv maxNrmSq).state.iter = 1 := by
  have h1 : aa_apply f x a gesv maxNrmSq
      = ⟨f, 0, { update_accel_params x f a with iter := 1 }⟩ := by
    unfold aa_apply
    rw [if_neg (by omega), if_pos hi]
    simp [hi]
  refine ⟨h1, ?_, ?_, ?_⟩ <;> (rw [h1] <;> rfl)

/-- Witness for C4: first call on a freshly constructed enabled
instance. -/
theorem claim4_first_step_warmup_witness :
    aa_apply [4] [3] (aa_init 1 2 true) gesvZero 100
        = ⟨[4], 0,
           { update_accel_params [3] [4] (aa_init 1 2 true) with iter := 1 }⟩
      ∧ (aa_apply [4] [3] (aa_init 1 2 true) gesvZero 100).state.x = [3]
      ∧ (aa_apply [4] [3] (aa_init 1 2 true) gesvZero 100).state.f = [4]
      ∧ (aa_apply [4] [3] (aa_init 1 2 true) gesvZero 100).state.iter = 1 :=
  claim4_first_step_warmup (aa_init 1 2 true) [3] [4] gesvZero 100
    (by decide) (by decide)

/-- Claim C10: after every non-disabled call to step the stored
snapshots equal the raw arguments of that call (the stored previous
iterate is the passed-in x, the stored previous map value is the
passed-in f), and the state after the call does not depend on the
solver oracle or the safeguard threshold at all, so the accelerated
output is never fed back into the history state. -/
theorem claim10_snapshots_raw (a : AaWork) (x f : Vec)
    (g1 g2 : Gesv) (m1 m2 : ℚ) (hk : 0 < a.k) :
    (aa_apply f x a g1 m1).state.x = x
      ∧ (aa_apply f x a g1 m1).state.f = f
      ∧ (aa_apply f x a g1 m1).state = (aa_apply f x a g2 m2).state := by
  rw [aa_apply_state f x a g1 m1 hk, aa_apply_state f x a g2 m2 hk]
  exact ⟨rfl, rfl, rfl⟩

/-- Witness for C10: second call on a small instance, with two
different oracles and thresholds. -/
theorem claim10_snapshots_raw_witness :
    (aa_apply [6] [7]
        (aa_apply [4] [3] (aa_init 1 2 true) gesvZero 100).state
        gesvZero 100).state.x = [7]
      ∧ (aa_apply [6] [7]
          (aa_apply [4] [3] (aa_init 1 2 true) gesvZero 100).state
          gesvZero 100).state.f = [6]
      ∧ (aa_apply [6] [7]
          (aa_apply [4] [3] (aa_init 1 2 true) gesvZero 100).state
          gesvZero 100).state
        = (aa_apply [6] [7]
            (aa_apply [4] [3] (aa_init 1 2 true) gesvZero 100).state
            gesvProbe 7).state :=
  claim10_snapshots_raw
    (aa_apply [4] [3] (aa_init 1 2 true) gesvZero 100).state
    [7] [6] gesvZero gesvProbe 100 7 (by decide)

/-- Claim C2: on every non-disabled call to step with input vectors x
and f, the history update computes `g = x - f`, `s = x - xPrev`,
`d = f - fPrev`, `y = g - gPrev`, writes y, s, d into column
`idx = iterationCount mod k` of Y, S, D, and recomputes the whole Gram
matrix from the updated buffers: `M = Sᵀ·Y` for the type-1 variant and
`M = Yᵀ·Y` otherwise, `set_m_mat` reading every column of both
operands. -/
theorem claim2_history_update (a : AaWork) (x f : Vec) (gesv : Gesv)
    (maxNrmSq : ℚ) (hk : 0 < a.k) :
    (aa_apply f x a gesv maxNrmSq).state.g = vsub x f
      ∧ (aa_apply f x a gesv maxNrmSq).state.Y
          = a.Y.set (a.iter % kn a) (vsub (vsub x f) a.g_prev)
      ∧ (aa_apply f x a gesv maxNrmSq).state.S
          = a.S.set (a.iter % kn a) (vsub x a.x)
      ∧ (aa_apply f x a gesv maxNrmSq).state.D
          = a.D.set (a.iter % kn a) (vsub f a.f)
      ∧ (aa_apply f x a gesv maxNrmSq).state.M
          = set_m_mat
              (if a.type1 then a.S.set (a.iter % kn a) (vsub x a.x)
               else a.Y.set (a.iter % kn a) (vsub (vsub x f) a.g_prev))
              (a.Y.set (a.iter % kn a) (vsub (vsub x f) a.g_prev)) := by
  rw [aa_apply_state f x a gesv maxNrmSq hk]
  refine ⟨?_, ?_, ?_, ?_, ?_⟩ <;> simp

/-- Witness for C2 at a concrete second call. -/
theorem claim2_history_update_witness :
    (aa_apply [6] [7]
        (aa_apply [4] [3] (aa_init 1 2 true) gesvZero 100).state
        gesvZero 100).state.g
        = vsub [7] [6]
      ∧ (aa_apply [6] [7]
          (aa_apply [4] [3] (aa_init 1 2 true) gesvZero 100).state
          gesvZero 100).state.Y
        = ((aa_apply [4] [3] (aa_init 1 2 true) gesvZero 100).state.Y).set
            ((aa_apply [4] [3] (aa_init 1 2 true) gesvZero 100).state.iter %
              kn (aa_apply [4] [3] (aa_init 1 2 true) gesvZero 100).state)
            (vsub (vsub [7] [6])
              (aa_apply [4] [3] (aa_init 1 2 true) gesvZero 100).state.g_prev)
      ∧ (aa_apply [6] [7]
          (aa_apply [4] [3] (aa_init 1 2 true) gesvZero 100).state
          gesvZero 100).state.S
        = ((aa_apply [4] [3] (aa_init 1 2 true) gesvZero 100).state.S).set
            ((aa_apply [4] [3] (aa_init 1 2 true) gesvZero 100).state.iter %
              kn (aa_apply [4] [3] (aa_init 1 2 true) gesvZero 100).state)
            (vsub [7]
              (aa_apply [4] [3] (aa_init 1 2 true) gesvZero 100).state.x)
      ∧ (aa_apply [6] [7]
          (aa_apply [4] [3] (aa_init 1 2 true) gesvZero 100).state
          gesvZero 100).state.D
        = ((aa_apply [4] [3] (aa_init 1 2 true) gesvZero 100).state.D).set
            ((aa_apply [4] [3] (aa_init 1 2 true) gesvZero 100).state.iter %
              kn (aa_apply [4] [3] (aa_init 1 2 true) gesvZero 100).state)
            (vsub [6]
              (aa_apply [4] [3] (aa_init 1 2 true) gesvZero 100).state.f)
      ∧ (aa_apply [6] [7]
          (aa_apply [4] [3] (aa_init 1 2 true) gesvZero 100).state
          gesvZero 100).state.M
        = set_m_mat
            (if (aa_apply [4] [3] (aa_init 1 2 true) gesvZero 100).state.type1
             then ((aa_apply [4] [3]
                (aa_init 1 2 true) gesvZero 100).state.S).set
               ((aa_apply [4] [3] (aa_init 1 2 true) gesvZero 100).state.iter %
                 kn (aa_apply [4] [3] (aa_init 1 2 true) gesvZero 100).state)
               (vsub [7]
                 (aa_apply [4] [3] (aa_init 1 2 true) gesvZero 100).state.x)
             else ((aa_apply [4] [3]
                (aa_init 1 2 true) gesvZero 100).state.Y).set
               ((aa_apply [4] [3] (aa_init 1 2 true) gesvZero 100).state.iter %
                 kn (aa_apply [4] [3] (aa_init 1 2 true) gesvZero 100).state)
               (vsub (vsub [7] [6])
                 (aa_apply [4] [3]
                   (aa_init 1 2 true) gesvZero 100).state.g_prev))
            (((aa_apply [4] [3] (aa_init 1 2 true) gesvZero 100).state.Y).set
              ((aa_apply [4] [3] (aa_init 1 2 true) gesvZero 100).state.iter %
                kn (aa_apply [4] [3] (aa_init 1 2 true) gesvZero 100).state)
              (vsub (vsub [7] [6])
                (aa_apply [4] [3]
                  (aa_init 1 2 true) gesvZero 100).state.g_prev)) :=
  claim2_history_update
    (aa_apply [4] [3] (aa_init 1 2 true) gesvZero 100).state
    [7] [6] gesvZero 100 (by decide)

/-- Claim C6: the history buffers are circular in the iteration
counter: a non-disabled call entered with counter value n writes its
columns of Y, S, D at index `n mod k`; the call entered at counter
`n + k` targets the same index, and no call strictly between them does,
so the column written at call n is overwritten exactly by call `n + k`
(and hence the oldest column is overwritten once the counter reaches
k). -/
theorem claim6_circular_buffers (a : AaWork) (x f : Vec) (gesv : Gesv)
    (maxNrmSq : ℚ) (hk : 0 < a.k) :
    ((aa_apply f x a gesv maxNrmSq).state.Y
        = a.Y.set (a.iter % kn a) (vsub (vsub x f) a.g_prev)
      ∧ (aa_apply f x a gesv maxNrmSq).state.S
          = a.S.set (a.iter % kn a) (vsub x a.x)
      ∧ (aa_apply f x a gesv maxNrmSq).state.D
          = a.D.set (a.iter % kn a) (vsub f a.f))
      ∧ (a.iter + kn a) % kn a = a.iter % kn a
      ∧ ∀ n, a.iter < n → n < a.iter + kn a → n % kn a ≠ a.iter % kn a := by
  refine ⟨?_, Nat.add_mod_right a.iter (kn a), ?_⟩
  · rw [aa_apply_state f x a gesv maxNrmSq hk]
    exact ⟨by simp, by simp, by simp⟩
  · intro n h1 h2 hc
    have hd : kn a ∣ n - a.iter :=
      (Nat.modEq_iff_dvd' (le_of_lt h1)).mp hc.symm
    have hle : kn a ≤ n - a.iter := Nat.le_of_dvd (by omega) hd
    omega

/-- Witness for C6: third call on a depth-2 instance (entry counter 2,
so the column written by the first post-warmup call is reused). -/
theorem claim6_circular_buffers_witness :
    ((aa_apply [9] [8]
        (aa_apply [6] [7]
          (aa_apply [4] [3] (aa_init 1 2 true) gesvZero 100).state
          gesvZero 100).state
        gesvZero 100).state.Y
      = ((aa_apply [6] [7]
          (aa_apply [4] [3] (aa_init 1 2 true) gesvZero 100).state
          gesvZero 100).state.Y).set
          ((aa_apply [6] [7]
              (aa_apply [4] [3] (aa_init 1 2 true) gesvZero 100).state
              gesvZero 100).state.iter %
            kn (aa_apply [6] [7]
              (aa_apply [4] [3] (aa_init 1 2 true) gesvZero 100).state
              gesvZero 100).state)
          (vsub (vsub [8] [9])
            (aa_apply [6] [7]
              (aa_apply [4] [3] (aa_init 1 2 true) gesvZero 100).state
              gesvZero 100).state.g_prev)
      ∧ (aa_apply [9] [8]
          (aa_apply [6] [7]
            (aa_apply [4] [3] (aa_init 1 2 true) gesvZero 100).state
            gesvZero 100).state
          gesvZero 100).state.S
        = ((aa_apply [6] [7]
            (aa_apply [4] [3] (aa_init 1 2 true) gesvZero 100).state
            gesvZero 100).state.S).set
            ((aa_apply [6] [7]
                (aa_apply [4] [3] (aa_init 1 2 true) gesvZero 100).state
                gesvZero 100).state.iter %
              kn (aa_apply [6] [7]
                (aa_apply [4] [3] (aa_init 1 2 true) gesvZero 100).state
                gesvZero 100).state)
            (vsub [8]
              (aa_apply [6] [7]
                (aa_apply [4] [3] (aa_init 1 2 true) gesvZero 100).state
                gesvZero 100).state.x)
      ∧ (aa_apply [9] [8]
          (aa_apply [6] [7]
            (aa_apply [4] [3] (aa_init 1 2 true) gesvZero 100).state
            gesvZero 100).state
          gesvZero 100).state.D
        = ((aa_apply [6] [7]
            (aa_apply [4] [3] (aa_init 1 2 true) gesvZero 100).state
            gesvZero 100).state.D).set
            ((aa_apply [6] [7]
                (aa_apply [4] [3] (aa_init 1 2 true) gesvZero 100).state
                gesvZero 100).state.iter %
              kn (aa_apply [6] [7]
                (aa_apply [4] [3] (aa_init 1 2 true) gesvZero 100).state
                gesvZero 100).state)
            (vsub [9]
              (aa_apply [6] [7]
                (aa_apply [4] [3] (aa_init 1 2 true) gesvZero 100).state
                gesvZero 100).state.f))
      ∧ ((aa_apply [6] [7]
            (aa_apply [4] [3] (aa_init 1 2 true) gesvZero 100).state
            gesvZero 100).state.iter +
          kn (aa_apply [6] [7]
            (aa_apply [4] [3] (aa_init 1 2 true) gesvZero 100).state
            gesvZero 100).state) %
          kn (aa_apply [6] [7]
            (aa_apply [4] [3] (aa_init 1 2 true) gesvZero 100).state
            gesvZero 100).state
        = (aa_apply [6] [7]
            (aa_apply [4] [3] (aa_init 1 2 true) gesvZero 100).state
            gesvZero 100).state.iter %
          kn (aa_apply [6] [7]
            (aa_apply [4] [3] (aa_init 1 2 true) gesvZero 100).state
            gesvZero 100).state
      ∧ ∀ n,
          (aa_apply [6] [7]
            (aa_apply [4] [3] (aa_init 1 2 true) gesvZero 100).state
            gesvZero 100).state.iter < n →
          n < (aa_apply [6] [7]
              (aa_apply [4] [3] (aa_init 1 2 true) gesvZero 100).state
              gesvZero 100).state.iter +
            kn (aa_apply [6] [7]
              (aa_apply [4] [3] (aa_init 1 2 true) gesvZero 100).state
              gesvZero 100).state →
          n % kn (aa_apply [6] [7]
              (aa_apply [4] [3] (aa_init 1 2 true) gesvZero 100).state
              gesvZero 100).state
            ≠ (aa_apply [6] [7]
                (aa_apply [4] [3] (aa_init 1 2 true) gesvZero 100).state
                gesvZero 100).state.iter %
              kn (aa_apply [6] [7]
                (aa_apply [4] [3] (aa_init 1 2 true) gesvZero 100).state
                gesvZero 100).state :=
  claim6_circular_buffers
    (aa_apply [6] [7]
      (aa_apply [4] [3] (aa_init 1 2 true) gesvZero 100).state
      gesvZero 100).state
    [8] [9] gesvZero 100 (by decide)

/-- Claim C7: a rejected solve is not terminal and never aborts the
iteration.  On any post-warmup call: a negative status hands the caller
the un-accelerated map output (f is returned as passed); whatever the
solve outcome, the state after the call is exactly the updated history
with the counter incremented (so the columns written into Y, S, D, the
snapshots of x, f and the residual, and the incremented counter are all
retained); and the next call proceeds exactly as a normal accelerating
step, entering the guarded solve rather than warmup. -/
theorem claim7_rejection_not_terminal (a : AaWork) (x f x2 f2 : Vec)
    (g g2 : Gesv) (m m2 : ℚ) (hk : 0 < a.k) (hi : a.iter ≠ 0) :
    ((aa_apply f x a g m).status < 0 → (aa_apply f x a g m).f = f)
      ∧ (aa_apply f x a g m).state
          = { update_accel_params x f a with iter := a.iter + 1 }
      ∧ (aa_apply f x a g m).state.iter = a.iter + 1
      ∧ aa_apply f2 x2 (aa_apply f x a g m).state g2 m2
          = ⟨(solve f2
                { update_accel_params x2 f2 (aa_apply f x a g m).state with
                    iter := (aa_apply f x a g m).state.iter + 1 }
                (min (aa_apply f x a g m).state.iter
                  (kn (aa_apply f x a g m).state)) g2 m2).1,
              (solve f2
                { update_accel_params x2 f2 (aa_apply f x a g m).state with
                    iter := (aa_apply f x a g m).state.iter + 1 }
                (min (aa_apply f x a g m).state.iter
                  (kn (aa_apply f x a g m).state)) g2 m2).2,
              { update_accel_params x2 f2 (aa_apply f x a g m).state with
                  iter := (aa_apply f x a g m).state.iter + 1 }⟩ := by
  have hst := aa_apply_state f x a g m hk
  have hk2 : 0 < (aa_apply f x a g m).state.k := by rw [hst]; simpa using hk
  have hi2 : (aa_apply f x a g m).state.iter ≠ 0 := by
    rw [hst]; simp
  refine ⟨?_, hst, by rw [hst], ?_⟩
  · intro hneg
    rw [aa_apply_solve f x a g m hk hi] at hneg ⊢
    exact solve_neg_status f
      { update_accel_params x f a with iter := a.iter + 1 }
      (min a.iter (kn a)) g m hneg
  · exact aa_apply_solve f2 x2 (aa_apply f x a g m).state g2 m2 hk2 hi2

/-- Witness for C7: a post-warmup call (entry counter 1) on a depth-2
instance, followed by another call. -/
theorem claim7_rejection_not_terminal_witness :
    ((aa_apply [6] [7]
        (aa_apply [4] [3] (aa_init 1 2 true) gesvZero 100).state
        gesvZero 100).status < 0 →
      (aa_apply [6] [7]
        (aa_apply [4] [3] (aa_init 1 2 true) gesvZero 100).state
        gesvZero 100).f = [6])
      ∧ (aa_apply [6] [7]
          (aa_apply [4] [3] (aa_init 1 2 true) gesvZero 100).state
          gesvZero 100).state
        = { update_accel_params [7] [6]
              (aa_apply [4] [3] (aa_init 1 2 true) gesvZero 100).state with
            iter := (aa_apply [4] [3]
              (aa_init 1 2 true) gesvZero 100).state.iter + 1 }
      ∧ (aa_apply [6] [7]
          (aa_apply [4] [3] (aa_init 1 2 true) gesvZero 100).state
          gesvZero 100).state.iter
        = (aa_apply [4] [3]
            (aa_init 1 2 true) gesvZero 100).state.iter + 1
      ∧ aa_apply [11] [10]
          (aa_apply [6] [7]
            (aa_apply [4] [3] (aa_init 1 2 true) gesvZero 100).state
            gesvZero 100).state
          gesvProbe 7
        = ⟨(solve [11]
              { update_accel_params [10] [11]
                  (aa_apply [6] [7]
                    (aa_apply [4] [3] (aa_init 1 2 true) gesvZero 100).state
                    gesvZero 100).state with
                  iter := (aa_apply [6] [7]
                    (aa_apply [4] [3] (aa_init 1 2 true) gesvZero 100).state
                    gesvZero 100).state.iter + 1 }
              (min (aa_apply [6] [7]
                  (aa_apply [4] [3] (aa_init 1 2 true) gesvZero 100).state
                  gesvZero 100).state.iter
                (kn (aa_apply [6] [7]
                  (aa_apply [4] [3] (aa_init 1 2 true) gesvZero 100).state
                  gesvZero 100).state)) gesvProbe 7).1,
            (solve [11]
              { update_accel_params [10] [11]
                  (aa_apply [6] [7]
                    (aa_apply [4] [3] (aa_init 1 2 true) gesvZero 100).state
                    gesvZero 100).state with
                  iter := (aa_apply [6] [7]
                    (aa_apply [4] [3] (aa_init 1 2 true) gesvZero 100).state
                    gesvZero 100).state.iter + 1 }
              (min (aa_apply [6] [7]
                  (aa_apply [4] [3] (aa_init 1 2 true) gesvZero 100).state
                  gesvZero 100).state.iter
                (kn (aa_apply [6] [7]
                  (aa_apply [4] [3] (aa_init 1 2 true) gesvZero 100).state
                  gesvZero 100).state)) gesvProbe 7).2,
            { update_accel_params [10] [11]
                (aa_apply [6] [7]
                  (aa_apply [4] [3] (aa_init 1 2 true) gesvZero 100).state
                  gesvZero 100).state with
                iter := (aa_apply [6] [7]
                  (aa_apply [4] [3] (aa_init 1 2 true) gesvZero 100).state
                  gesvZero 100).state.iter + 1 }⟩ :=
  claim7_rejection_not_terminal
    (aa_apply [4] [3] (aa_init 1 2 true) gesvZero 100).state
    [7] [6] [10] [11] gesvZero gesvProbe 100 7 (by decide) (by decide)

set_option maxRecDepth 4096 in
/-- Running `solve` with the size-reporting oracle returns, as the
status, exactly the size at which the external pivoted solver was
invoked. -/
theorem solve_probe_status (f : Vec) (b : AaWork) (len : ℕ) (m : ℚ)
    (hm : 0 < m) (hlen : len ≤ kn b)
    (hA : (if b.type1 then b.S else b.Y).length = kn b) :
    (solve f b len gesvProbe m).2 = (len : ℤ) := by
  have hmap :
      (((if b.type1 then b.S else b.Y).take len).map
        (fun ai => dot ai b.g)).length = len := by
    rw [List.length_map, List.length_take, hA]
    omega
  have hdrop :
      ((((if b.type1 then b.S else b.Y).take len).map
          (fun ai => dot ai b.g)) ++ zeros (kn b - len)).drop len
        = zeros (kn b - len) := List.drop_left' hmap
  have hprobe : ∀ M w0, gesvProbe len M w0 = (zeros len, (len : ℤ)) :=
    fun _ _ => rfl
  have hcat : zeros len ++ zeros (kn b - len) = zeros (len + (kn b - len)) :=
    zeros_append len (kn b - len)
  simp only [solve, hprobe, hdrop, padTake_zeros, hcat, dot_zeros]
  rw [if_neg (by push_neg; exact ⟨by omega, by linarith⟩)]

/-- Claim C3 as amended: for every post-warmup step, the pivoted dense
linear solve is performed at the dynamically valid size
`len = min(iterationCount, k)` — not at the full declared memory depth
k — as witnessed by the size-reporting oracle: the status returned
(which on acceptance is the info produced by the solver) equals
`min(iterationCount, k)`. -/
theorem claim3_solve_at_len (a : AaWork) (x f : Vec) (maxNrmSq : ℚ)
    (hk : 0 < a.k) (hi : a.iter ≠ 0) (hm : 0 < maxNrmSq)
    (hS : a.S.length = kn a) (hY : a.Y.length = kn a) :
    (aa_apply f x a gesvProbe maxNrmSq).status
      = ((min a.iter (kn a) : ℕ) : ℤ) := by
  rw [aa_apply_solve f x a gesvProbe maxNrmSq hk hi]
  have hA : (if ({ update_accel_params x f a with
        iter := a.iter + 1 } : AaWork).type1
      then ({ update_accel_params x f a with iter := a.iter + 1 } : AaWork).S
      else ({ update_accel_params x f a with
        iter := a.iter + 1 } : AaWork).Y).length
      = kn { update_accel_params x f a with iter := a.iter + 1 } := by
    by_cases ht : a.type1 <;> simp [ht, kn, hS, hY]
  have hkn : kn { update_accel_params x f a with iter := a.iter + 1 }
      = kn a := by simp [kn]
  have := solve_probe_status f
    { update_accel_params x f a with iter := a.iter + 1 }
    (min a.iter (kn a)) maxNrmSq hm (by rw [hkn]; omega) hA
  exact this

/-- Witness for the amended C3: a second call (entry counter 1) on a
depth-2 instance returns status 1 = min(1, 2). -/
theorem claim3_solve_at_len_witness :
    (aa_apply [6] [7]
        (aa_apply [4] [3] (aa_init 1 2 true) gesvZero 100).state
        gesvProbe 100).status
      = ((min (aa_apply [4] [3] (aa_init 1 2 true) gesvZero 100).state.iter
            (kn (aa_apply [4] [3]
              (aa_init 1 2 true) gesvZero 100).state) : ℕ) : ℤ) :=
  claim3_solve_at_len
    (aa_apply [4] [3] (aa_init 1 2 true) gesvZero 100).state
    [7] [6] 100 (by decide) (by decide) (by decide) (by decide) (by decide)

/-- Counterexample to C3 as stated: on a depth-2 instance the second
call (entry counter 1) invokes the external solver at size 1, not at
the full size k = 2.  The size-reporting oracle makes the size
observable as the returned status: the actual call returns 1, whereas
the same guarded solve performed at the full size k on the identical
post-update state returns 2. -/
theorem claim3_full_size_cex :
    (aa_apply [6] [7]
        (aa_apply [4] [3] (aa_init 1 2 true) gesvZero 100).state
        gesvProbe 100).status = 1
      ∧ (solve [6]
          { update_accel_params [7] [6]
              (aa_apply [4] [3] (aa_init 1 2 true) gesvZero 100).state with
            iter := 2 } 2 gesvProbe 100).2 = 2
      ∧ (1 : ℤ) ≠ 2 := by
  have h100 : (0 : ℚ) < 100 := by norm_num
  refine ⟨?_, ?_, by decide⟩
  · have h := solve_probe_status [6]
      { update_accel_params [7] [6]
          (aa_apply [4] [3] (aa_init 1 2 true) gesvZero 100).state with
        iter := (aa_apply [4] [3]
          (aa_init 1 2 true) gesvZero 100).state.iter + 1 }
      (min (aa_apply [4] [3] (aa_init 1 2 true) gesvZero 100).state.iter
        (kn (aa_apply [4] [3] (aa_init 1 2 true) gesvZero 100).state))
      100 h100 (by decide) (by decide)
    rw [aa_apply_solve [6] [7]
      (aa_apply [4] [3] (aa_init 1 2 true) gesvZero 100).state
      gesvProbe 100 (by decide) (by decide)]
    show (solve [6]
        { update_accel_params [7] [6]
            (aa_apply [4] [3] (aa_init 1 2 true) gesvZero 100).state with
          iter := (aa_apply [4] [3]
            (aa_init 1 2 true) gesvZero 100).state.iter + 1 }
        (min (aa_apply [4] [3] (aa_init 1 2 true) gesvZero 100).state.iter
          (kn (aa_apply [4] [3]
            (aa_init 1 2 true) gesvZero 100).state)) gesvProbe 100).2 = 1
    rw [h]
    decide
  · have h := solve_probe_status [6]
      { update_accel_params [7] [6]
          (aa_apply [4] [3] (aa_init 1 2 true) gesvZero 100).state with
        iter := 2 } 2 100 h100 (by decide) (by decide)
    rw [h]
    decide

/-- Counterexample to C8 as stated: with an allocation oracle under
which the record calloc succeeds but every one of the thirteen buffer
callocs fails, `aa_init` still returns a non-null handle (the buffer
allocations are never checked), refuting the claim that a non-null
handle implies every buffer was successfully allocated. -/
theorem claim8_alloc_cex :
    (aa_init_alloc 2 (fun n => n == 0)).isSome = true
      ∧ aa_init_alloc 2 (fun n => n == 0)
          = some (List.replicate 13 false) := by
  decide

/-- Claim C8 as amended: construct returns the null handle, signalling
AllocationFailure, exactly when the allocation of the state record
itself cannot be satisfied; the thirteen buffer allocations are
unchecked, so a non-null handle only guarantees the record.  On the
path where the allocations succeed, every buffer of an enabled instance
is zero-initialized and the iteration counter starts at 0. -/
theorem claim8_alloc_checks_record_only (l : ℕ) (kk : ℤ) (t : Bool)
    (ok : ℕ → Bool) (hk : 0 < kk) :
    (aa_init_alloc kk ok = none ↔ ok 0 = false)
      ∧ (aa_init l kk t).x = zeros l
      ∧ (aa_init l kk t).f = zeros l
      ∧ (aa_init l kk t).g = zeros l
      ∧ (aa_init l kk t).g_prev = zeros l
      ∧ (aa_init l kk t).Y = List.replicate kk.toNat (zeros l)
      ∧ (aa_init l kk t).S = List.replicate kk.toNat (zeros l)
      ∧ (aa_init l kk t).D = List.replicate kk.toNat (zeros l)
      ∧ (aa_init l kk t).M = List.replicate kk.toNat (zeros kk.toNat)
      ∧ (aa_init l kk t).iter = 0 := by
  have hinit : aa_init l kk t
      = ⟨t, kk, l, 0, zeros l, zeros l, zeros l, zeros l, zeros l, zeros l,
          zeros l, List.replicate kk.toNat (zeros l),
          List.replicate kk.toNat (zeros l),
          List.replicate kk.toNat (zeros l),
          List.replicate kk.toNat (zeros kk.toNat)⟩ := by
    unfold aa_init
    rw [if_neg (by omega)]
  refine ⟨?_, ?_, ?_, ?_, ?_, ?_, ?_, ?_, ?_, ?_⟩
  · unfold aa_init_alloc
    by_cases h : ok 0 = false
    · simp [h]
    · rw [if_neg h]
      by_cases h2 : kk ≤ 0
      · rw [if_pos h2]; simp [h]
      · rw [if_neg h2]; simp [h]
  all_goals rw [hinit]

/-- Witness for the amended C8 at a concrete depth and oracle. -/
theorem claim8_alloc_checks_record_only_witness :
    (aa_init_alloc 2 (fun n => n == 5) = none ↔ ((fun n => n == 5) 0) = false)
      ∧ (aa_init 3 2 true).x = zeros 3
      ∧ (aa_init 3 2 true).f = zeros 3
      ∧ (aa_init 3 2 true).g = zeros 3
      ∧ (aa_init 3 2 true).g_prev = zeros 3
      ∧ (aa_init 3 2 true).Y = List.replicate (2 : ℤ).toNat (zeros 3)
      ∧ (aa_init 3 2 true).S = List.replicate (2 : ℤ).toNat (zeros 3)
      ∧ (aa_init 3 2 true).D = List.replicate (2 : ℤ).toNat (zeros 3)
      ∧ (aa_init 3 2 true).M
          = List.replicate (2 : ℤ).toNat (zeros (2 : ℤ).toNat)
      ∧ (aa_init 3 2 true).iter = 0 :=
  claim8_alloc_checks_record_only 3 2 true (fun n => n == 5) (by decide)

theorem zipWith_vsub_zeros (k l : ℕ) :
    List.zipWith vsub (List.replicate k (zeros l)) (List.replicate k (zeros l))
      = List.replicate k (zeros l) := by
  induction k with
  | zero => rfl
  | succ k ih =>
    show vsub (zeros l) (zeros l)
        :: List.zipWith vsub (List.replicate k (zeros l))
            (List.replicate k (zeros l))
      = zeros l :: List.replicate k (zeros l)
    rw [vsub_zeros_self, ih]

/-- Claim C9: the identity D = S - Y holds over the whole history
matrices at all times.  It is established at construction (all three
matrices are zero, and the zero residual snapshot matches the zero
stored iterates) and is preserved by every call to step: the freshly
written column satisfies d = s - y, because
y = g - gPrev = (x - xPrev) - (f - fPrev) = s - d given the residual
snapshot invariant gPrev = xPrev - fPrev, itself maintained by every
step; columns not written this call keep the identity (and never yet
written columns stay zero, where it holds trivially).  The auxiliary
length facts needed to chain the invariant are preserved as well. -/
theorem claim9_D_eq_S_sub_Y (l : ℕ) (kk : ℤ) (t : Bool) (a : AaWork)
    (x f : Vec) (gesv : Gesv) (maxNrmSq : ℚ)
    (hx : x.length = a.l) (hf : f.length = a.l)
    (hxa : a.x.length = a.l) (hfa : a.f.length = a.l)
    (hSY : a.S.length = a.Y.length)
    (hg : residInv a) (hD : histInv a) :
    (residInv (aa_init l kk t) ∧ histInv (aa_init l kk t))
      ∧ residInv (aa_apply f x a gesv maxNrmSq).state
      ∧ histInv (aa_apply f x a gesv maxNrmSq).state
      ∧ (aa_apply f x a gesv maxNrmSq).state.x.length = a.l
      ∧ (aa_apply f x a gesv maxNrmSq).state.f.length = a.l
      ∧ (aa_apply f x a gesv maxNrmSq).state.S.length
          = (aa_apply f x a gesv maxNrmSq).state.Y.length := by
  have hinitp : residInv (aa_init l kk t) ∧ histInv (aa_init l kk t) := by
    unfold aa_init
    by_cases hkk : kk ≤ 0
    · rw [if_pos hkk]
      exact ⟨rfl, rfl⟩
    · rw [if_neg hkk]
      exact ⟨(vsub_zeros_self l).symm, (zipWith_vsub_zeros kk.toNat l).symm⟩
  by_cases hak : a.k ≤ 0
  · have hstep : aa_apply f x a gesv maxNrmSq = ⟨f, 0, a⟩ := by
      unfold aa_apply
      rw [if_pos hak]
    rw [hstep]
    exact ⟨hinitp, hg, hD, hxa, hfa, hSY⟩
  · rw [aa_apply_state f x a gesv maxNrmSq (by omega)]
    refine ⟨hinitp, by simp [residInv], ?_, by simp [hx], by simp [hf],
      by simp [hSY]⟩
    show (update_accel_params x f a).D
        = List.zipWith vsub (update_accel_params x f a).S
            (update_accel_params x f a).Y
    rw [update_D, update_S, update_Y, hg,
      zipWith_vsub_set a.S a.Y (a.iter % kn a) (vsub x a.x)
        (vsub (vsub x f) (vsub a.x a.f)) hSY, ← hD]
    congr 1
    exact (vsub_s_y x f a.x a.f (hx.trans hf.symm) (hxa.trans hfa.symm)
      (hx.trans hxa.symm)).symm

/-- Witness for C9: one step on a freshly constructed 2-by-2 instance,
whose initial state satisfies both invariants. -/
theorem claim9_D_eq_S_sub_Y_witness :
    (residInv (aa_init 2 2 true) ∧ histInv (aa_init 2 2 true))
      ∧ residInv (aa_apply [3, 4] [1, 2] (aa_init 2 2 true)
          gesvZero 100).state
      ∧ histInv (aa_apply [3, 4] [1, 2] (aa_init 2 2 true)
          gesvZero 100).state
      ∧ (aa_apply [3, 4] [1, 2] (aa_init 2 2 true)
          gesvZero 100).state.x.length = (aa_init 2 2 true).l
      ∧ (aa_apply [3, 4] [1, 2] (aa_init 2 2 true)
          gesvZero 100).state.f.length = (aa_init 2 2 true).l
      ∧ (aa_apply [3, 4] [1, 2] (aa_init 2 2 true)
          gesvZero 100).state.S.length
        = (aa_apply [3, 4] [1, 2] (aa_init 2 2 true)
            gesvZero 100).state.Y.length :=
  claim9_D_eq_S_sub_Y 2 2 true (aa_init 2 2 true) [1, 2] [3, 4]
    gesvZero 100 (by decide) (by decide) (by decide) (by decide) (by decide)
    ((vsub_zeros_self 2).symm) ((zipWith_vsub_zeros 2 2).symm)

/-- Characterization of `solve` through named intermediate values: the
right-hand side assembled by `gemv("Trans")`, the diagnostic and
solution of the external solver, and the workspace holding the weight
vector. -/
theorem solve_chars (fv : Vec) (b : AaWork) (len : ℕ) (gesv : Gesv)
    (m : ℚ) (A : List Vec) (work0 w : Vec) (info : ℤ)
    (hA : A = if b.type1 then b.S else b.Y)
    (hw0 : work0
      = (A.take len).map (fun ai => dot ai b.g) ++ zeros (kn b - len))
    (hinfo : info = (gesv len b.M work0).2)
    (hw : w = padTake len (gesv len b.M work0).1 ++ work0.drop len) :
    solve fv b len gesv m
      = if info < 0 ∨ m ≤ dot w w then (fv, -1)
        else ((List.zip (b.D.take len) (w.take len)).foldl
            (fun acc cw => axpy (-cw.2) cw.1 acc) fv, info) := by
  subst hw hinfo hw0 hA
  rfl

/-- Claim C1: on every post-warmup step of an enabled instance
(`k > 0`, entry counter at least 1), the call returns a negative status
(SolveRejected) exactly when the external pivoted solve reports the
failure diagnostic the code tests (`info < 0`) or the computed weight
vector w satisfies `‖w‖₂ ≥ MAX_AA_NRM`, stated exactly as the squared
norm `dot w w` reaching the squared threshold `maxNrmSq`; on rejection
the output vector is exactly the f passed in for the call (and the
status is -1); otherwise the correction `f - D·w` over the `len` valid
columns of D is applied and the non-negative info is returned as the
status.  The intermediate values of the solve are pinned by the
defining equations on `a2` (state after the history update), `len`,
`A`, `work0`, `info` and `w`. -/
theorem claim1_guarded_solve (a a2 : AaWork) (x f : Vec) (gesv : Gesv)
    (maxNrmSq : ℚ) (len : ℕ) (A : List Vec) (work0 w : Vec) (info : ℤ)
    (hk : 0 < a.k) (hi : 1 ≤ a.iter)
    (hf : f.length = a.l) (hfa : a.f.length = a.l)
    (hDl : ∀ c ∈ a.D, (c : Vec).length = a.l)
    (ha2 : a2 = (aa_apply f x a gesv maxNrmSq).state)
    (hlen : len = min a.iter (kn a))
    (hA : A = if a2.type1 then a2.S else a2.Y)
    (hw0 : work0
      = (A.take len).map (fun ai => dot ai a2.g) ++ zeros (kn a2 - len))
    (hinfo : info = (gesv len a2.M work0).2)
    (hw : w = padTake len (gesv len a2.M work0).1 ++ work0.drop len) :
    ((aa_apply f x a gesv maxNrmSq).status < 0
        ↔ info < 0 ∨ maxNrmSq ≤ dot w w)
      ∧ ((info < 0 ∨ maxNrmSq ≤ dot w w) →
          (aa_apply f x a gesv maxNrmSq).f = f
            ∧ (aa_apply f x a gesv maxNrmSq).status = -1)
      ∧ (¬(info < 0 ∨ maxNrmSq ≤ dot w w) →
          (aa_apply f x a gesv maxNrmSq).f
              = vsub f (mvmul (a2.D.take len) (w.take len) a.l)
            ∧ (aa_apply f x a gesv maxNrmSq).status = info
            ∧ 0 ≤ info) := by
  have ha2u : a2 = { update_accel_params x f a with iter := a.iter + 1 } := by
    rw [ha2, aa_apply_state f x a gesv maxNrmSq hk]
  have happ := aa_apply_solve f x a gesv maxNrmSq hk (by omega)
  rw [← ha2u, ← hlen] at happ
  have hstat : (aa_apply f x a gesv maxNrmSq).status
      = (solve f a2 len gesv maxNrmSq).2 := by rw [happ]
  have hfo : (aa_apply f x a gesv maxNrmSq).f
      = (solve f a2 len gesv maxNrmSq).1 := by rw [happ]
  have hchars := solve_chars f a2 len gesv maxNrmSq A work0 w info hA hw0
    hinfo hw
  rw [hstat, hfo, hchars]
  have hD2 : a2.D = a.D.set (a.iter % kn a) (vsub f a.f) := by
    rw [ha2u]; simp
  by_cases hrej : info < 0 ∨ maxNrmSq ≤ dot w w
  · rw [if_pos hrej]
    exact ⟨iff_of_true (by norm_num) hrej, fun _ => ⟨rfl, rfl⟩,
      fun hn => absurd hrej hn⟩
  · rw [if_neg hrej]
    have hni : ¬(info < 0) := fun hc => hrej (Or.inl hc)
    refine ⟨iff_of_false hni hrej, fun hc => absurd hc hrej, fun _ => ?_⟩
    refine ⟨?_, rfl, by omega⟩
    rw [← hf]
    show (List.zip (a2.D.take len) (w.take len)).foldl
        (fun acc cw => axpy (-cw.2) cw.1 acc) f
      = vsub f (mvmulPairs (List.zip (a2.D.take len) (w.take len)) f.length)
    refine foldl_axpy_eq _ f ?_
    intro p hp
    have h1 : p.1 ∈ a2.D.take len := (List.of_mem_zip hp).1
    have h2 : p.1 ∈ a2.D := List.take_subset len _ h1
    rw [hD2] at h2
    rcases List.mem_or_eq_of_mem_set h2 with h3 | h3
    · rw [hf]
      exact hDl _ h3
    · rw [h3]
      show (vsub f a.f).length = f.length
      simp only [vsub, List.length_zipWith]
      omega

/-- Witness for C1: an accepted second step on a depth-2 instance, with
the zero-solution oracle (zero weights, so the correction leaves f at
its input value but through the accepted branch). -/
theorem claim1_guarded_solve_witness :
    ((aa_apply [6] [7]
        (aa_apply [4] [3] (aa_init 1 2 true) gesvZero 100).state
        gesvZero 100).status < 0
      ↔ (gesvZero
            (min (aa_apply [4] [3]
                (aa_init 1 2 true) gesvZero 100).state.iter
              (kn (aa_apply [4] [3] (aa_init 1 2 true) gesvZero 100).state))
            (aa_apply [6] [7]
              (aa_apply [4] [3] (aa_init 1 2 true) gesvZero 100).state
              gesvZero 100).state.M
            (((if (aa_apply [6] [7]
                  (aa_apply [4] [3] (aa_init 1 2 true) gesvZero 100).state
                  gesvZero 100).state.type1
                then (aa_apply [6] [7]
                  (aa_apply [4] [3] (aa_init 1 2 true) gesvZero 100).state
                  gesvZero 100).state.S
                else (aa_apply [6] [7]
                  (aa_apply [4] [3] (aa_init 1 2 true) gesvZero 100).state
                  gesvZero 100).state.Y).take
                (min (aa_apply [4] [3]
                    (aa_init 1 2 true) gesvZero 100).state.iter
                  (kn (aa_apply [4] [3]
                    (aa_init 1 2 true) gesvZero 100).state))).map
              (fun ai => dot ai (aa_apply [6] [7]
                (aa_apply [4] [3] (aa_init 1 2 true) gesvZero 100).state
                gesvZero 100).state.g)
              ++ zeros (kn (aa_apply [6] [7]
                  (aa_apply [4] [3] (aa_init 1 2 true) gesvZero 100).state
                  gesvZero 100).state
                - min (aa_apply [4] [3]
                    (aa_init 1 2 true) gesvZero 100).state.iter
                  (kn (aa_apply [4] [3]
                    (aa_init 1 2 true) gesvZero 100).state)))).2 < 0
        ∨ (100 : ℚ) ≤ dot
            (padTake (min (aa_apply [4] [3]
                (aa_init 1 2 true) gesvZero 100).state.iter
              (kn (aa_apply [4] [3] (aa_init 1 2 true) gesvZero 100).state))
              (gesvZero
                (min (aa_apply [4] [3]
                    (aa_init 1 2 true) gesvZero 100).state.iter
                  (kn (aa_apply [4] [3]
                    (aa_init 1 2 true) gesvZero 100).state))
                (aa_apply [6] [7]
                  (aa_apply [4] [3] (aa_init 1 2 true) gesvZero 100).state
                  gesvZero 100).state.M
                (((if (aa_apply [6] [7]
                      (aa_apply [4] [3] (aa_init 1 2 true) gesvZero 100).state
                      gesvZero 100).state.type1
                    then (aa_apply [6] [7]
                      (aa_apply [4] [3] (aa_init 1 2 true) gesvZero 100).state
                      gesvZero 100).state.S
                    else (aa_apply [6] [7]
                      (aa_apply [4] [3] (aa_init 1 2 true) gesvZero 100).state
                      gesvZero 100).state.Y).take
                    (min (aa_apply [4] [3]
                        (aa_init 1 2 true) gesvZero 100).state.iter
                      (kn (aa_apply [4] [3]
                        (aa_init 1 2 true) gesvZero 100).state))).map
                  (fun ai => dot ai (aa_apply [6] [7]
                    (aa_apply [4] [3] (aa_init 1 2 true) gesvZero 100).state
                    gesvZero 100).state.g)
                  ++ zeros (kn (aa_apply [6] [7]
                      (aa_apply [4] [3] (aa_init 1 2 true) gesvZero 100).state
                      gesvZero 100).state
                    - min (aa_apply [4] [3]
                        (aa_init 1 2 true) gesvZero 100).state.iter
                      (kn (aa_apply [4] [3]
                        (aa_init 1 2 true) gesvZero 100).state)))).1
              ++ ((((if (aa_apply [6] [7]
                      (aa_apply [4] [3] (aa_init 1 2 true) gesvZero 100).state
                      gesvZero 100).state.type1
                    then (aa_apply [6] [7]
                      (aa_apply [4] [3] (aa_init 1 2 true) gesvZero 100).state
                      gesvZero 100).state.S
                    else (aa_apply [6] [7]
                      (aa_apply [4] [3] (aa_init 1 2 true) gesvZero 100).state
                      gesvZero 100).state.Y).take
                    (min (aa_apply [4] [3]
                        (aa_init 1 2 true) gesvZero 100).state.iter
                      (kn (aa_apply [4] [3]
                        (aa_init 1 2 true) gesvZero 100).state))).map
                  (fun ai => dot ai (aa_apply [6] [7]
                    (aa_apply [4] [3] (aa_init 1 2 true) gesvZero 100).state
                    gesvZero 100).state.g)
                  ++ zeros (kn (aa_apply [6] [7]
                      (aa_apply [4] [3] (aa_init 1 2 true) gesvZero 100).state
                      gesvZero 100).state
                    - min (aa_apply [4] [3]
                        (aa_init 1 2 true) gesvZero 100).state.iter
                      (kn (aa_apply [4] [3]
                        (aa_init 1 2 true) gesvZero 100).state))).drop
                (min (aa_apply [4] [3]
                    (aa_init 1 2 true) gesvZero 100).state.iter
                  (kn (aa_apply [4] [3]
                    (aa_init 1 2 true) gesvZero 100).state))))
            (padTake (min (aa_apply [4] [3]
                (aa_init 1 2 true) gesvZero 100).state.iter
              (kn (aa_apply [4] [3] (aa_init 1 2 true) gesvZero 100).state))
              (gesvZero
                (min (aa_apply [4] [3]
                    (aa_init 1 2 true) gesvZero 100).state.iter
                  (kn (aa_apply [4] [3]
                    (aa_init 1 2 true) gesvZero 100).state))
                (aa_apply [6] [7]
                  (aa_apply [4] [3] (aa_init 1 2 true) gesvZero 100).state
                  gesvZero 100).state.M
                (((if (aa_apply [6] [7]
                      (aa_apply [4] [3] (aa_init 1 2 true) gesvZero 100).state
                      gesvZero 100).state.type1
                    then (aa_apply [6] [7]
                      (aa_apply [4] [3] (aa_init 1 2 true) gesvZero 100).state
                      gesvZero 100).state.S
                    else (aa_apply [6] [7]
                      (aa_apply [4] [3] (aa_init 1 2 true) gesvZero 100).state
                      gesvZero 100).state.Y).take
                    (min (aa_apply [4] [3]
                        (aa_init 1 2 true) gesvZero 100).state.iter
                      (kn (aa_apply [4] [3]
                        (aa_init 1 2 true) gesvZero 100).state))).map
                  (fun ai => dot ai (aa_apply [6] [7]
                    (aa_apply [4] [3] (aa_init 1 2 true) gesvZero 100).state
                    gesvZero 100).state.g)
                  ++ zeros (kn (aa_apply [6] [7]
                      (aa_apply [4] [3] (aa_init 1 2 true) gesvZero 100).state
                      gesvZero 100).state
                    - min (aa_apply [4] [3]
                        (aa_init 1 2 true) gesvZero 100).state.iter
                      (kn (aa_apply [4] [3]
                        (aa_init 1 2 true) gesvZero 100).state)))).1
              ++ ((((if (aa_apply [6] [7]
                      (aa_apply [4] [3] (aa_init 1 2 true) gesvZero 100).state
                      gesvZero 100).state.type1
                    then (aa_apply [6] [7]
                      (aa_apply [4] [3] (aa_init 1 2 true) gesvZero 100).state
                      gesvZero 100).state.S
                    else (aa_apply [6] [7]
                      (aa_apply [4] [3] (aa_init 1 2 true) gesvZero 100).state
                      gesvZero 100).state.Y).take
                    (min (aa_apply [4] [3]
                        (aa_init 1 2 true) gesvZero 100).state.iter
                      (kn (aa_apply [4] [3]
                        (aa_init 1 2 true) gesvZero 100).state))).map
                  (fun ai => dot ai (aa_apply [6] [7]
                    (aa_apply [4] [3] (aa_init 1 2 true) gesvZero 100).state
                    gesvZero 100).state.g)
                  ++ zeros (kn (aa_apply [6] [7]
                      (aa_apply [4] [3] (aa_init 1 2 true) gesvZero 100).state
                      gesvZero 100).state
                    - min (aa_apply [4] [3]
                        (aa_init 1 2 true) gesvZero 100).state.iter
                      (kn (aa_apply [4] [3]
                        (aa_init 1 2 true) gesvZero 100).state))).drop
                (min (aa_apply [4] [3]
                    (aa_init 1 2 true) gesvZero 100).state.iter
                  (kn (aa_apply [4] [3]
                    (aa_init 1 2 true) gesvZero 100).state))))) := by
  exact (claim1_guarded_solve
    (aa_apply [4] [3] (aa_init 1 2 true) gesvZero 100).state
    (aa_apply [6] [7]
      (aa_apply [4] [3] (aa_init 1 2 true) gesvZero 100).state
      gesvZero 100).state
    [7] [6] gesvZero 100
    (min (aa_apply [4] [3] (aa_init 1 2 true) gesvZero 100).state.iter
      (kn (aa_apply [4] [3] (aa_init 1 2 true) gesvZero 100).state))
    (if (aa_apply [6] [7]
        (aa_apply [4] [3] (aa_init 1 2 true) gesvZero 100).state
        gesvZero 100).state.type1
      then (aa_apply [6] [7]
        (aa_apply [4] [3] (aa_init 1 2 true) gesvZero 100).state
        gesvZero 100).state.S
      else (aa_apply [6] [7]
        (aa_apply [4] [3] (aa_init 1 2 true) gesvZero 100).state
        gesvZero 100).state.Y)
    _ _ _
    (by decide) (by decide) (by decide) (by decide) (by decide)
    rfl rfl rfl rfl rfl rfl).1

end AA
